import Mathlib

/-!
Verification of the file-content-extractor script (`python-script.py`).

The script extracts text and images from documents into a per-file output
folder and then packages that folder into a zip archive.  This file gives a
shallow embedding of the parts of the script that the specification talks
about:

* `pySuffix` / `pyStem` mirror `pathlib.PurePath.suffix` / `.stem`;
* `supported_formats` and `selectedHandler` mirror the dispatch table built
  in `FileExtractor.__init__` and its use in `extract_content`;
* `extract_content` mirrors `FileExtractor.extract_content`, with the
  per-format handler abstracted as a function from the selected handler to
  the files it would write (or the error message it raises);
* `generate_password` / `choosePassword` mirror
  `FileExtractor.generate_password` and `args.password or
  extractor.generate_password()` in `main`;
* `_extract_pdf` mirrors the text half of `FileExtractor._extract_pdf`;
* `encrypt_folder` mirrors `FileExtractor.encrypt_folder`, including the
  exact behaviour of `zipfile.ZipFile.writestr` when a `ZipInfo` object is
  passed as its `compress_type` argument (CPython's `_check_compression`
  raises `NotImplementedError` for anything that is not one of the known
  numeric constants);
* `main_run` mirrors the `try:` block of `main`.

File contents are modelled as strings, a folder as a list of
(relative path, content) pairs in `os.walk` order.
-/

/-- Python exceptions that the script can raise, by constructor. -/
inductive PyError where
  /-- `FileNotFoundError` raised by `extract_content` for a missing input. -/
  | fileNotFound (msg : String)
  /-- `ValueError` raised by `extract_content` for an unrecognized extension. -/
  | valueError (msg : String)
  /-- The bare `Exception` that `extract_content` re-raises after a handler error. -/
  | wrapped (msg : String)
  /-- `NotImplementedError` raised by `zipfile._check_compression`. -/
  | notImplemented (msg : String)
deriving DecidableEq

deriving instance DecidableEq for Except

/-- Is this error the `ValueError("Unsupported file format: ...")` kind? -/
def PyError.isUnsupportedFormat : PyError → Bool
  | .valueError _ => true
  | _ => false

/-- The five handler methods the dispatch table can select. -/
inductive Handler where
  | pdf
  | docx
  | pptx
  | txt
  | image
deriving DecidableEq

/-- The dispatch table `self.supported_formats` from `FileExtractor.__init__`:
extension string to handler method. -/
def supported_formats : List (String × Handler) :=
  [(".pdf", .pdf), (".docx", .docx), (".pptx", .pptx), (".txt", .txt),
   (".jpg", .image), (".jpeg", .image), (".png", .image), (".bmp", .image),
   (".tiff", .image)]

/-- Index of the last occurrence of a dot in a character list
(`str.rfind` restricted to the needs of `PurePath.suffix`). -/
def rfindDot : List Char → Option Nat
  | [] => none
  | c :: rest =>
    match rfindDot rest with
    | some i => some (i + 1)
    | none => if c = '.' then some 0 else none

/-- `pathlib.PurePath.suffix` of a final path component: the substring from
the last dot, provided that dot is neither the first nor the last character;
otherwise the empty string. -/
def pySuffix (name : String) : String :=
  match rfindDot name.data with
  | some i => if 0 < i ∧ i < name.data.length - 1 then String.mk (name.data.drop i) else ""
  | none => ""

/-- `pathlib.PurePath.stem` of a final path component: the part before the
suffix, or the whole name when there is no suffix. -/
def pyStem (name : String) : String :=
  match rfindDot name.data with
  | some i => if 0 < i ∧ i < name.data.length - 1 then String.mk (name.data.take i) else name

  | none => name

/-- `str.lower()`, character by character (the suffixes involved are ASCII). -/
def pyLower (s : String) : String := String.mk (s.data.map Char.toLower)

/-- The handler `extract_content` selects for an input file name:
`self.supported_formats[file_path.suffix.lower()]`, as an `Option`. -/
def selectedHandler (inputName : String) : Option Handler :=
  supported_formats.lookup (pyLower (pySuffix inputName))

/-- Files of a directory tree: (relative path, content) pairs in walk order. -/
abbrev FileMap := List (String × String)

/-- State of the per-input output folder `<output_dir>/<base_name>`. -/
structure FolderState where
  /-- Does the folder exist on disk? -/
  present : Bool
  /-- Files under the folder, as relative path to content. -/
  files : FileMap
deriving DecidableEq

/-- Files written by a successful handler merged over pre-existing files
(a handler write overwrites a pre-existing file at the same path). -/
def mergeFiles (old new : FileMap) : FileMap :=
  old.filter (fun p => (new.lookup p.1).isNone) ++ new

/-- `FileExtractor.extract_content(input_file, output_dir)`.

`inputExists` models `file_path.exists()`; `inputName` is the final
component of `input_file`; `pre` is the prior state of the output folder
`<output_dir>/<base_name>` (created with `exist_ok=True`, so a pre-existing
folder is reused); `run` gives the outcome of the selected handler: the
files it writes, or the message of the exception it raises.

Returns the final folder state together with the outcome: the returned
folder name (`base_name`) or the raised error. -/
def extract_content (inputExists : Bool) (inputName : String)
    (pre : FolderState) (run : Handler → Except String FileMap) :
    FolderState × Except PyError String :=
  if inputExists = false then
    (pre, .error (.fileNotFound s!"File not found: {inputName}"))
  else
    let file_ext := pyLower (pySuffix inputName)
    match supported_formats.lookup file_ext with
    | none => (pre, .error (.valueError s!"Unsupported file format: {file_ext}"))
    | some h =>
      match run h with
      | .error e =>
        (⟨false, []⟩, .error (.wrapped s!"Error extracting {file_ext} file: {e}"))
      | .ok written =>
        (⟨true, mergeFiles pre.files written⟩, .ok (pyStem inputName))

/-! ## Passwords (`generate_password` and the `main` password choice) -/

/-- `string.ascii_lowercase`. -/
def ascii_lowercase : String := "abcdefghijklmnopqrstuvwxyz"

/-- `string.ascii_uppercase`. -/
def ascii_uppercase : String := "ABCDEFGHIJKLMNOPQRSTUVWXYZ"

/-- `string.ascii_letters`. -/
def ascii_letters : String := ascii_lowercase ++ ascii_uppercase

/-- `string.digits`. -/
def string_digits : String := "0123456789"

/-- `string.punctuation`: the printable ASCII characters that are neither
letters nor digits (codes 33..126 minus the alphanumerics, 32 characters). -/
def punctuation : String :=
  String.mk (((List.range 127).map Char.ofNat).filter
    (fun c => 33 ≤ c.toNat && c.toNat ≤ 126 && !(c.isAlphanum)))

/-- The alphabet `characters = string.ascii_letters + string.digits +
string.punctuation` used by `generate_password`. -/
def password_characters : String := ascii_letters ++ string_digits ++ punctuation

/-- `random.choice(seq)`: one uniformly chosen element; the randomness is
abstracted as a natural number reduced modulo the sequence length. -/
def pyChoice (s : String) (r : Nat) : Char :=
  s.data.getD (r % s.data.length) 'a'

/-- `FileExtractor.generate_password(length=16)`: `length` independent
`random.choice(characters)` draws, joined.  `rand i` abstracts the `i`-th
draw of the underlying random stream. -/
def generate_password (rand : Nat → Nat) (length : Nat := 16) : String :=
  String.mk ((List.range length).map (fun i => pyChoice password_characters (rand i)))

/-- The password choice in `main`: `args.password or
extractor.generate_password()`.  Python's `or` takes the right operand
whenever the left is falsy, i.e. when `args.password` is `None` *or* the
empty string. -/
def choosePassword (argPassword : Option String) (rand : Nat → Nat) : String :=
  match argPassword with
  | none => generate_password rand
  | some p => if p = "" then generate_password rand else p

/-! ## PDF text extraction (`_extract_pdf`, text half) -/

/-- Truthiness of Python `s.strip()`: does `s` contain a character that is
not ASCII whitespace? -/
def pyStripNonempty (s : String) : Bool :=
  s.data.any (fun c => !(c = ' ' || c = '\t' || c = '\n' || c = '\x0b' || c = '\x0c' || c = '\r'))

/-- The string appended to `text_content` for page `page_num`:
`f"--- Page {page_num} ---\n{text}\n"`. -/
def pageBlock (page_num : Nat) (text : String) : String :=
  s!"--- Page {page_num} ---\n{text}\n"

/-- The `for page_num, page in enumerate(pdf_reader.pages, 1)` loop of
`_extract_pdf`: collect a `pageBlock` for every page whose extracted text is
non-blank, pages numbered from `page_num`. -/
def pdfTextBlocks : Nat → List String → List String
  | _, [] => []
  | page_num, text :: rest =>
    (if pyStripNonempty text then [pageBlock page_num text] else []) ++
      pdfTextBlocks (page_num + 1) rest

/-- The text half of `FileExtractor._extract_pdf`, as a function from the
per-page texts that `PyPDF2` yields to the content of
`text/extracted_text.txt`: `none` when no file is written (empty
`text_content`), otherwise the `f.writelines(text_content)` concatenation.
(The image half, full-page rasterization via `pdf2image`, is wrapped in a
non-fatal `try/except` and is not modelled.) -/
def _extract_pdf (pages : List String) : Option String :=
  let text_content := pdfTextBlocks 1 pages
  if text_content.isEmpty then none else some (String.join text_content)

/-! ## The packager (`encrypt_folder`) and its use of `zipfile`

`encrypt_folder(folder_path, password)` first writes `<folder_path>.zip`
with one entry per file `os.walk` finds under the folder, then "reopens
with password protection": it copies every entry into
`<folder_path>_temp.zip` via

  `zip_write.writestr(item, zip_read.read(item), zipfile.ZipInfo(item.filename))`

and finally replaces the original zip with the temp one.  Two facts of the
`zipfile` library are modelled exactly:

* the third positional argument of `writestr` is `compress_type`; the call
  above therefore passes a `ZipInfo` *object* where a numeric compression
  constant is expected, and `_check_compression` (reached through
  `open(zinfo, mode='w')` / `_writecheck` before anything is written)
  raises `NotImplementedError("That compression method is not supported")`
  for any value that is not one of the known numeric constants;
* the write API (`ZipFile(..., 'w')`, `write`, `writestr`) has no password
  parameter at all (`setpassword` affects only extraction), so no archive
  the script writes carries a password.
-/

/-- `zipfile.ZIP_STORED`. -/
def ZIP_STORED : Nat := 0

/-- `zipfile.ZIP_DEFLATED`. -/
def ZIP_DEFLATED : Nat := 8

/-- `zipfile.ZIP_BZIP2`. -/
def ZIP_BZIP2 : Nat := 12

/-- `zipfile.ZIP_LZMA`. -/
def ZIP_LZMA : Nat := 14

/-- A value passed as a `compress_type`: a numeric constant, or (as the
script's rewrite pass does) a whole `ZipInfo` object. -/
inductive CompressArg where
  | const (n : Nat)
  | zipInfoObj (filename : String)
deriving DecidableEq

/-- `zipfile._check_compression`: accepts the four known numeric constants;
anything else — in particular a `ZipInfo` object, which compares unequal to
every integer — raises `NotImplementedError`. -/
def check_compression : CompressArg → Except PyError Unit
  | .const n =>
    if n = ZIP_STORED ∨ n = ZIP_DEFLATED ∨ n = ZIP_BZIP2 ∨ n = ZIP_LZMA then .ok ()
    else .error (.notImplemented "That compression method is not supported")
  | .zipInfoObj _ => .error (.notImplemented "That compression method is not supported")

/-- One archive member: name, (uncompressed) content, compression method. -/
structure ZipEntry where
  filename : String
  content : String
  compress_type : CompressArg
deriving DecidableEq

/-- A zip file on disk.  `password` records password protection applied at
creation; the `zipfile` write API offers no such parameter, so the script
only ever produces archives with `password = none`. -/
structure ZipArchive where
  entries : List ZipEntry
  password : Option String
deriving DecidableEq

/-- `ZipFile.writestr(zinfo, data, compress_type)` with an explicit third
argument: the zinfo's compression method is overwritten with the argument,
then `open(zinfo, mode='w')` runs `_writecheck`, whose `_check_compression`
raises before anything is appended; on success the entry is appended. -/
def writestr (entries : List ZipEntry) (zinfo : ZipEntry) (data : String)
    (compress_type : CompressArg) : Except PyError (List ZipEntry) :=
  let z : ZipEntry := { zinfo with compress_type := compress_type }
  match check_compression z.compress_type with
  | .error e => .error e
  | .ok _ => .ok (entries ++ [{ z with content := data }])

/-- The `for item in zip_read.infolist()` loop of `encrypt_folder`: each
entry is copied with `writestr(item, zip_read.read(item),
zipfile.ZipInfo(item.filename))`.  Returns the entries written before a
failure and the error, or all copied entries and no error (the surrounding
`with` closes the temp zip with whatever was written so far either way). -/
def rewriteEntries : List ZipEntry → List ZipEntry → List ZipEntry × Option PyError
  | [], acc => (acc, none)
  | item :: rest, acc =>
    match writestr acc item item.content (.zipInfoObj item.filename) with
    | .error e => (acc, some e)
    | .ok acc2 => rewriteEntries rest acc2

/-- The slice of the disk that `encrypt_folder` touches: the source folder,
the zip at `<folder_path>.zip`, and the temp zip at `<folder_path>_temp.zip`. -/
structure Disk where
  /-- Does the source folder exist?  (`os.walk` on a missing path just
  yields nothing.) -/
  folderPresent : Bool
  /-- Files under the source folder, relative path to content, walk order. -/
  folderFiles : FileMap
  /-- The file at `<folder_path>.zip`, if present. -/
  zipOnDisk : Option ZipArchive
  /-- The file at `<folder_path>_temp.zip`, if present. -/
  tempZip : Option ZipArchive
deriving DecidableEq

set_option linter.unusedVariables false in
/-- `FileExtractor.encrypt_folder(folder_path, password)`.  Returns the
disk after the call together with the returned `zip_path` or the raised
error.  Note that the body never reads `password` and contains no removal
of the source folder. -/
def encrypt_folder (folder_path : String) (d : Disk) (password : String) :
    Disk × Except PyError String :=
  let zip_path := folder_path ++ ".zip"
  let walked := if d.folderPresent then d.folderFiles else []
  let firstPass : List ZipEntry :=
    walked.map (fun f => ⟨f.1, f.2, .const ZIP_DEFLATED⟩)
  let d1 : Disk := { d with zipOnDisk := some ⟨firstPass, none⟩ }
  match rewriteEntries firstPass [] with
  | (acc, some e) =>
    ({ d1 with tempZip := some ⟨acc, none⟩ }, .error e)
  | (rewritten, none) =>
    ({ d1 with zipOnDisk := some ⟨rewritten, none⟩, tempZip := none }, .ok zip_path)

/-- Observable result of the `try:` block of `main`: final state of the
output folder, the two zip paths, and either `(encrypted_zip, password)`
as printed on success or the caught error (printed before `sys.exit(1)`). -/
structure MainResult where
  folder : FolderState
  zipOnDisk : Option ZipArchive
  tempZip : Option ZipArchive
  outcome : Except PyError (String × String)
deriving DecidableEq

/-- The `try:` block of `main`: `extract_content`, then `args.password or
generate_password()`, then `encrypt_folder(output_folder, password)`, then
`shutil.rmtree(output_folder)`, then the success report. -/
def main_run (inputExists : Bool) (inputName : String) (pre : FolderState)
    (run : Handler → Except String FileMap) (argPassword : Option String)
    (rand : Nat → Nat) : MainResult :=
  match extract_content inputExists inputName pre run with
  | (st, .error e) => ⟨st, none, none, .error e⟩
  | (st, .ok output_folder) =>
    let password := choosePassword argPassword rand
    let d0 : Disk := ⟨st.present, st.files, none, none⟩
    match encrypt_folder output_folder d0 password with
    | (d1, .error e) =>
      ⟨⟨d1.folderPresent, d1.folderFiles⟩, d1.zipOnDisk, d1.tempZip, .error e⟩
    | (d1, .ok encrypted_zip) =>
      ⟨⟨false, []⟩, d1.zipOnDisk, d1.tempZip, .ok (encrypted_zip, password)⟩

/-! ## Theorems for the claims -/

/-- Does an `extract_content` outcome carry the `ValueError` used for
unsupported formats? -/
def outcomeIsUnsupportedFormat : Except PyError String → Bool
  | .error e => e.isUnsupportedFormat
  | .ok _ => false

/-- C1: the claim says `encrypt_folder` returns a zip that is
password-protected with the given password.  The code never uses its
`password` parameter: even on a run where archival succeeds (an empty
folder, the only case in which the rewrite pass does not raise), the
archive left at `<folder>.zip` carries no password protection at all. -/
theorem C1_no_password_protection :
    (encrypt_folder "extracted_output/doc" ⟨true, [], none, none⟩ "hunter2").2 =
      .ok "extracted_output/doc.zip" ∧
    (encrypt_folder "extracted_output/doc" ⟨true, [], none, none⟩ "hunter2").1.zipOnDisk =
      some ⟨[], none⟩ := by decide

/-- C2: the claim says the produced archive contains exactly the files
under the folder, byte-identical, at the same relative paths.  In fact, for
any folder that contains at least one file the "reopen with password
protection" pass passes a `ZipInfo` object as `writestr`'s `compress_type`
argument, so `encrypt_folder` raises `NotImplementedError` and returns no
archive; the disk is left with the first-pass zip and an empty temp zip. -/
theorem C2_rewrite_pass_raises :
    encrypt_folder "extracted_output/doc"
        ⟨true, [("text/extracted_text.txt", "hello")], none, none⟩ "pw" =
      (⟨true, [("text/extracted_text.txt", "hello")],
        some ⟨[⟨"text/extracted_text.txt", "hello", .const 8⟩], none⟩,
        some ⟨[], none⟩⟩,
       .error (.notImplemented "That compression method is not supported")) := by decide

/-- C9: the password argument has no influence on anything
`encrypt_folder` does — the archive bytes, the rest of the disk, and the
outcome are identical for any two passwords (the parameter is never read). -/
theorem C9_password_noninterference (folder_path : String) (d : Disk) (p1 p2 : String) :
    encrypt_folder folder_path d p1 = encrypt_folder folder_path d p2 := rfl

/-- C3: when the dispatched handler raises, `extract_content` removes the
output folder entirely (`shutil.rmtree`) and re-raises the error wrapped
with the file-extension context. -/
theorem C3_handler_error_cleanup (inputName : String) (pre : FolderState)
    (run : Handler → Except String FileMap) (h : Handler) (e : String)
    (hsel : selectedHandler inputName = some h)
    (hrun : run h = .error e) :
    extract_content true inputName pre run =
      (⟨false, []⟩,
       .error (.wrapped s!"Error extracting {pyLower (pySuffix inputName)} file: {e}")) := by
  unfold extract_content
  simp only [selectedHandler] at hsel
  simp [hsel, hrun]

/-- Witness for C3: a `.pdf` input whose handler fails with "boom". -/
theorem C3_witness :
    extract_content true "doc.pdf" ⟨true, [("images/old.png", "bytes")]⟩
        (fun _ => .error "boom") =
      (⟨false, []⟩, .error (.wrapped "Error extracting .pdf file: boom")) := by
  have hw := C3_handler_error_cleanup "doc.pdf" ⟨true, [("images/old.png", "bytes")]⟩
      (fun _ => .error "boom") .pdf "boom" (by decide) rfl
  exact hw.trans (by decide)

/-- C10: the output folder is created with `exist_ok=True`, so a
pre-existing folder with arbitrary content is reused; when the handler then
fails, `shutil.rmtree(output_folder)` removes the folder together with
everything it held before the run. -/
theorem C10_cleanup_removes_preexisting (inputName : String) (old : FileMap)
    (run : Handler → Except String FileMap) (h : Handler) (e : String)
    (hsel : selectedHandler inputName = some h)
    (hrun : run h = .error e) :
    (extract_content true inputName ⟨true, old⟩ run).1 = ⟨false, []⟩ := by
  unfold extract_content
  simp only [selectedHandler] at hsel
  simp [hsel, hrun]

/-- Witness for C10: a pre-existing folder holding a stale file is wiped by
a failed extraction. -/
theorem C10_witness :
    (extract_content true "doc.pdf" ⟨true, [("text/extracted_text.txt", "stale")]⟩
        (fun _ => .error "boom")).1 = ⟨false, []⟩ :=
  C10_cleanup_removes_preexisting "doc.pdf" [("text/extracted_text.txt", "stale")]
    (fun _ => .error "boom") .pdf "boom" (by decide) rfl

/-- Counterexample to C7 as stated: the claim quantifies over *every* input
path with an unrecognized extension, but `extract_content` checks
existence first, so a missing `missing.xyz` fails with `FileNotFoundError`,
not with the `ValueError` used for unsupported formats. -/
theorem C7_counterexample :
    selectedHandler "missing.xyz" = none ∧
    (extract_content false "missing.xyz" ⟨false, []⟩ (fun _ => .ok [])).2 =
      .error (.fileNotFound "File not found: missing.xyz") ∧
    outcomeIsUnsupportedFormat
      (extract_content false "missing.xyz" ⟨false, []⟩ (fun _ => .ok [])).2 = false := by
  decide

/-- C7 (amended): for every *existing* input path whose extension is not in
the recognized set, `extract_content` raises the unsupported-format
`ValueError` and leaves the file system untouched — in particular it
creates no output folder. -/
theorem C7_unsupported_ext_no_folder (inputName : String) (pre : FolderState)
    (run : Handler → Except String FileMap)
    (hsel : selectedHandler inputName = none) :
    extract_content true inputName pre run =
      (pre, .error (.valueError s!"Unsupported file format: {pyLower (pySuffix inputName)}")) := by
  unfold extract_content
  simp only [selectedHandler] at hsel
  simp [hsel]

/-- Witness for the amended C7: an existing `doc.xyz`. -/
theorem C7_witness :
    extract_content true "doc.xyz" ⟨false, []⟩ (fun _ => .ok []) =
      (⟨false, []⟩, .error (.valueError "Unsupported file format: .xyz")) := by
  have hw := C7_unsupported_ext_no_folder "doc.xyz" ⟨false, []⟩ (fun _ => .ok [])
    (by decide)
  exact hw.trans (by decide)

/-- C8: the handler `extract_content` selects is a function of the
lowercased suffix alone, so suffixes differing only in letter case select
the same handler. -/
theorem C8_selection_lowercase_only (p1 p2 : String)
    (h : pyLower (pySuffix p1) = pyLower (pySuffix p2)) :
    selectedHandler p1 = selectedHandler p2 := by
  unfold selectedHandler
  rw [h]

/-- Witness for C8: `doc.PDF` and `doc.pdf` select the same handler. -/
theorem C8_witness :
    selectedHandler "doc.PDF" = selectedHandler "doc.pdf" ∧
    selectedHandler "doc.pdf" = some .pdf :=
  ⟨C8_selection_lowercase_only "doc.PDF" "doc.pdf" (by decide), by decide⟩

/-- `encrypt_folder` never changes whether the source folder exists: its
body contains no `rmtree`, on either exit path. -/
theorem encrypt_folder_folderPresent (folder_path : String) (d : Disk) (password : String) :
    (encrypt_folder folder_path d password).1.folderPresent = d.folderPresent := by
  unfold encrypt_folder
  dsimp only
  split <;> rfl

/-- Counterexample to C4 as stated: invoked standalone on a (file-less)
folder, `encrypt_folder` archives successfully and yet the source folder is
still present afterwards — the Packager itself deletes nothing. -/
theorem C4_counterexample :
    (encrypt_folder "extracted_output/notes" ⟨true, [], none, none⟩ "pw").2 =
      .ok "extracted_output/notes.zip" ∧
    (encrypt_folder "extracted_output/notes" ⟨true, [], none, none⟩ "pw").1.folderPresent
      = true := by
  decide

/-- C4 (amended): the deletion of the source folder after successful
archival is performed by `main` (`shutil.rmtree(output_folder)` after
`encrypt_folder` returns), not by the Packager: `encrypt_folder` itself
leaves the folder's existence unchanged, and whenever the pipeline reports
success the output folder has been removed. -/
theorem C4_deletion_is_in_main (folder_path : String) (d : Disk) (password : String)
    (inputExists : Bool) (inputName : String) (pre : FolderState)
    (run : Handler → Except String FileMap) (argPassword : Option String)
    (rand : Nat → Nat) (encrypted_zip pw : String)
    (hok : (main_run inputExists inputName pre run argPassword rand).outcome =
      .ok (encrypted_zip, pw)) :
    (encrypt_folder folder_path d password).1.folderPresent = d.folderPresent ∧
    (main_run inputExists inputName pre run argPassword rand).folder = ⟨false, []⟩ := by
  refine ⟨encrypt_folder_folderPresent folder_path d password, ?_⟩
  unfold main_run at hok ⊢
  split at hok
  · simp_all
  · dsimp only at hok ⊢
    split at hok
    · simp_all
    · simp_all

/-- Witness for the amended C4: a pipeline run (blank `.pdf`, caller
password "pw") that succeeds and leaves no output folder behind. -/
theorem C4_witness :
    (main_run true "doc.pdf" ⟨false, []⟩ (fun _ => .ok []) (some "pw")
        (fun _ => 0)).folder = ⟨false, []⟩ :=
  (C4_deletion_is_in_main "x" ⟨true, [], none, none⟩ "pw" true "doc.pdf" ⟨false, []⟩
    (fun _ => .ok []) (some "pw") (fun _ => 0) "doc.zip" "pw" (by decide)).2

/-- Counterexample to C5 as stated: an explicitly supplied *empty* password
is not used unmodified — `args.password or generate_password()` treats the
empty string as absent and generates a fresh password instead. -/
theorem C5_counterexample :
    choosePassword (some "") (fun _ => 0) ≠ "" ∧
    choosePassword (some "") (fun _ => 0) = "aaaaaaaaaaaaaaaa" := by decide

/-- Every `random.choice` draw is an element of the sequence. -/
theorem pyChoice_mem (s : String) (hs : s.data ≠ []) (r : Nat) : pyChoice s r ∈ s.data := by
  unfold pyChoice
  have hlen : r % s.data.length < s.data.length :=
    Nat.mod_lt _ (List.length_pos.mpr hs)
  rw [List.getD_eq_getElem _ _ hlen]
  exact List.getElem_mem hlen

/-- C5 (amended): a generated password (no caller password, or an empty
caller password) is 16 characters long, each drawn from letters, digits or
punctuation; a *non-empty* caller-supplied password is used unmodified. -/
theorem C5_password_contract (rand : Nat → Nat) (p : String) (hp : p ≠ "") :
    (generate_password rand).length = 16 ∧
    (∀ c ∈ (generate_password rand).data,
      c ∈ ascii_letters.data ∨ c ∈ string_digits.data ∨ c ∈ punctuation.data) ∧
    choosePassword none rand = generate_password rand ∧
    choosePassword (some p) rand = p := by
  refine ⟨?_, ?_, rfl, ?_⟩
  · show ((List.range 16).map _).length = 16
    simp
  · intro c hc
    have hc2 : c ∈ (List.range 16).map (fun i => pyChoice password_characters (rand i)) := hc
    rw [List.mem_map] at hc2
    obtain ⟨i, -, rfl⟩ := hc2
    have hmem : pyChoice password_characters (rand i) ∈ password_characters.data :=
      pyChoice_mem _ (by decide) _
    have hsplit : password_characters.data =
        ascii_letters.data ++ (string_digits.data ++ punctuation.data) := by decide
    rw [hsplit] at hmem
    rcases List.mem_append.mp hmem with h1 | h2
    · exact Or.inl h1
    · rcases List.mem_append.mp h2 with h3 | h4
      · exact Or.inr (Or.inl h3)
      · exact Or.inr (Or.inr h4)
  · simp [choosePassword, hp]

/-- Witness for the amended C5: a concrete random stream and the caller
password "secret". -/
theorem C5_witness :
    (generate_password (fun _ => 0)).length = 16 ∧
    choosePassword (some "secret") (fun _ => 0) = "secret" :=
  ⟨(C5_password_contract (fun _ => 0) "secret" (by decide)).1,
   (C5_password_contract (fun _ => 0) "secret" (by decide)).2.2.2⟩

/-- `pdfTextBlocks` starting at page `n` is the filter-map over the pages
enumerated from `n`. -/
theorem pdfTextBlocks_enumFrom (pages : List String) (n : Nat) :
    pdfTextBlocks n pages =
      (List.enumFrom n pages).filterMap
        (fun pr => if pyStripNonempty pr.2 then some (pageBlock pr.1 pr.2) else none) := by
  induction pages generalizing n with
  | nil => rfl
  | cons t rest ih =>
    simp only [pdfTextBlocks, List.enumFrom, List.filterMap_cons]
    cases hb : pyStripNonempty t <;> simp [hb, ih]

/-- `text_content` is empty exactly when no page has non-blank text. -/
theorem pdfTextBlocks_isEmpty (pages : List String) (n : Nat) :
    (pdfTextBlocks n pages).isEmpty = !pages.any pyStripNonempty := by
  induction pages generalizing n with
  | nil => rfl
  | cons t rest ih =>
    cases hb : pyStripNonempty t <;> simp [pdfTextBlocks, hb, ih]

/-- C6: `_extract_pdf` writes a text file exactly when some page yields
non-blank text, the written file is the concatenation of one
`--- Page N ---` block per page with non-blank text (`N` the 1-based page
number), and the 3-page scenario (text on pages 1 and 3, page 2 blank)
yields exactly the blocks for pages 1 and 3. -/
theorem C6_pdf_text_blocks (pages : List String) :
    ((_extract_pdf pages).isSome = pages.any pyStripNonempty) ∧
    (∀ s, _extract_pdf pages = some s →
        s = String.join ((List.enumFrom 1 pages).filterMap
          (fun pr => if pyStripNonempty pr.2 then some (pageBlock pr.1 pr.2) else none))) ∧
    _extract_pdf ["Alpha", " \t ", "Gamma"] =
      some ("--- Page 1 ---\nAlpha\n--- Page 3 ---\nGamma\n") := by
  refine ⟨?_, ?_, by decide⟩
  · cases hA : pages.any pyStripNonempty
    · have hE : (pdfTextBlocks 1 pages).isEmpty = true := by
        rw [pdfTextBlocks_isEmpty, hA]; rfl
      simp [_extract_pdf, hE]
    · have hE : (pdfTextBlocks 1 pages).isEmpty = false := by
        rw [pdfTextBlocks_isEmpty, hA]; rfl
      simp [_extract_pdf, hE]
  · intro s hs
    simp only [_extract_pdf] at hs
    split at hs
    · simp at hs
    · rw [pdfTextBlocks_enumFrom] at hs
      exact (Option.some.inj hs).symm

/-- Witness for C6: the 3-page scenario, with the conclusion of the general
block description instantiated at its text file. -/
theorem C6_witness :
    "--- Page 1 ---\nAlpha\n--- Page 3 ---\nGamma\n" =
      String.join ((List.enumFrom 1 ["Alpha", " \t ", "Gamma"]).filterMap
        (fun pr => if pyStripNonempty pr.2 then some (pageBlock pr.1 pr.2) else none)) :=
  (C6_pdf_text_blocks ["Alpha", " \t ", "Gamma"]).2.1 _ (by decide)
